import Mathlib

/-!
Verification of the optimistic move synchronization protocol of a
browser chess client (`src/web/script.js`).

The script keeps a module-level variable `prev` (the last captured board
snapshot), registers two handlers on a chessboard widget, and talks to a
server over `$.post`:

  var prev;
  function onDrop (source, target, piece, newPos, oldPos, orientation) {
    $.post("move/" + source + "/" + target, callback = function(data, status) {
      if (data != "valid") {
        board1.position(prev, false);
      }
    });
  }
  function onDragStart () {
    prev = board1.position();
  }

We embed this shallowly as a state machine driven by three kinds of
events (drag-start, drop, response arrival).  Pure pieces of the handler
code (`onDrop`'s request construction and its response callback) are
embedded as standalone functions so that dependence properties can be
stated about them directly, and the event step function is built from
them.
-/

namespace Chess

/-- A square identifier such as `"e2"`. -/
abbrev Square := String

/-- A piece identifier such as `"wP"`. -/
abbrev Piece := String

/-- A chessboard.js position object: a finite mapping from squares to
pieces, embedded as an association list. -/
abbrev BoardPos := List (Square × Piece)

/-- An HTTP request as issued by `$.post(url, callback)`: the URL path,
the method, and the request payload (jQuery sends no payload when the
second argument is the callback function). -/
structure Request where
  path : String
  method : String
  payload : Option String
deriving DecidableEq, Repr

/-- A command sent to the UI collaborator (the chessboard widget).
`setPosition p animate` embeds `board1.position(p, animate)`; the first
argument is `none` when the JS value passed is `undefined` (an
uninitialized `prev`). -/
inductive UICmd where
  | setPosition : Option BoardPos → Bool → UICmd
deriving DecidableEq, Repr

/-- The state of the synchronizer together with its collaborators:
`prev` is the module-level snapshot variable (`none` = JS `undefined`),
`board` is the position displayed by the widget, `inflight` the
outstanding validation requests in issue order, and `uiLog` the sequence
of commands sent to the widget (used to observe how rollbacks are
commanded). -/
structure SyncState where
  prev : Option BoardPos
  board : BoardPos
  inflight : List Request
  uiLog : List UICmd
deriving DecidableEq, Repr

/-- The request URL built by `onDrop`: `"move/" + source + "/" + target`. -/
def requestPath (source target : Square) : String :=
  "move/" ++ source ++ "/" ++ target

/-- Embeds the request construction of
`onDrop(source, target, piece, newPos, oldPos, orientation)`:
`$.post("move/" + source + "/" + target, callback)` issues a POST to
that path with no payload.  The remaining handler arguments are kept in
the signature, mirroring the JS function, to make their non-use a
statable fact. -/
def onDropRequest (source target : Square) (piece : Piece)
    (newPos oldPos : BoardPos) (orient : String) : Request :=
  { path := requestPath source target, method := "POST", payload := none }

/-- Embeds the response callback
`function(data, status) { if (data != "valid") { board1.position(prev, false); } }`:
given the value of `prev` at response time and the response body and
status, it yields the list of commands sent to the widget. -/
def callbackCmds (prev : Option BoardPos) (data : String) (status : String) :
    List UICmd :=
  if data ≠ "valid" then [UICmd.setPosition prev false] else []

/-- Effect of a UI command on the widget board.  Modelled from the spec:
the UI collaborator provides a way to set the board position to a given
BoardSnapshot; the widget is not part of the source under verification.
Setting the position to `undefined` (`none`) is rejected by the widget
and leaves the board unchanged. -/
def applyUICmd (board : BoardPos) : UICmd → BoardPos
  | UICmd.setPosition (some p) _ => p
  | UICmd.setPosition none _ => board

/-- The events driving the synchronizer: a drag-start, a drop carrying
the six arguments the widget supplies to `onDrop`, and the arrival of a
response (body and status) for the `i`-th outstanding request. -/
inductive Event where
  | dragStart : Event
  | drop : Square → Square → Piece → BoardPos → BoardPos → String → Event
  | respond : Nat → String → String → Event
deriving DecidableEq, Repr

/-- One event step.
`dragStart` embeds `prev = board1.position()`.
`drop` first applies the widget's optimistic move (modelled from the
spec: the UI collaborator has already applied the move before the
handler observes it, so the displayed position becomes `newPos`), then
runs `onDrop`, which issues exactly one request.
`respond i data status` delivers a response to the `i`-th outstanding
request, running the registered callback; a response to a request that
does not exist changes nothing. -/
def step (s : SyncState) : Event → SyncState
  | Event.dragStart => { s with prev := some s.board }
  | Event.drop source target piece newPos oldPos orient =>
      { s with
          board := newPos,
          inflight :=
            s.inflight ++ [onDropRequest source target piece newPos oldPos orient] }
  | Event.respond i data status =>
      if i < s.inflight.length then
        { s with
            inflight := s.inflight.eraseIdx i,
            uiLog := s.uiLog ++ callbackCmds s.prev data status,
            board := (callbackCmds s.prev data status).foldl applyUICmd s.board }
      else s

/-- Running a list of events from a state. -/
def run (s : SyncState) : List Event → SyncState
  | [] => s
  | e :: t => run (step s e) t

/-- The initial state: `var prev;` leaves the snapshot uninitialized
(`none`), no request is in flight, and the widget displays some starting
position `b` (the script configures `position: 'start'`; the proofs are
uniform in it). -/
def init (b : BoardPos) : SyncState :=
  { prev := none, board := b, inflight := [], uiLog := [] }

lemma run_append (t₁ t₂ : List Event) (s : SyncState) :
    run s (t₁ ++ t₂) = run (run s t₁) t₂ := by
  induction t₁ generalizing s with
  | nil => rfl
  | cons e t ih => simpa [run] using ih (step s e)

lemma step_prev_of_ne_dragStart (s : SyncState) (e : Event)
    (h : e ≠ Event.dragStart) : (step s e).prev = s.prev := by
  cases e with
  | dragStart => exact absurd rfl h
  | drop source target piece newPos oldPos orient => rfl
  | respond i data status =>
      simp only [step]
      split <;> rfl

lemma run_prev_of_noDragStart (t : List Event) (s : SyncState)
    (h : Event.dragStart ∉ t) : (run s t).prev = s.prev := by
  induction t generalizing s with
  | nil => rfl
  | cons e t ih =>
      have he : Event.dragStart ≠ e := fun hx => h (hx ▸ List.mem_cons_self e t)
      have ht : Event.dragStart ∉ t := fun hx => h (List.mem_cons_of_mem e hx)
      rw [run, ih (step s e) ht, step_prev_of_ne_dragStart s e he.symm]

lemma respond_board_rollback (s : SyncState) (i : Nat) (data status : String)
    (hi : i < s.inflight.length) (p : BoardPos) (hp : s.prev = some p)
    (hd : data ≠ "valid") :
    (step s (Event.respond i data status)).board = p := by
  simp only [step, if_pos hi, callbackCmds, if_pos hd, hp]
  rfl

lemma respond_uiLog (s : SyncState) (i : Nat) (data status : String)
    (hi : i < s.inflight.length) :
    (step s (Event.respond i data status)).uiLog
      = s.uiLog ++ callbackCmds s.prev data status := by
  simp only [step, if_pos hi]

lemma respond_prev (s : SyncState) (i : Nat) (data status : String) :
    (step s (Event.respond i data status)).prev = s.prev := by
  simp only [step]
  split <;> rfl

lemma respond_inflight_le (s : SyncState) (i : Nat) (data status : String) :
    (step s (Event.respond i data status)).inflight.length
      ≤ s.inflight.length := by
  simp only [step]
  split
  · exact le_trans (List.length_eraseIdx_le s.inflight i) (le_refl _)
  · exact le_refl _

lemma run_cons_dragStart (s : SyncState) (t : List Event) :
    run s (Event.dragStart :: t) = run (step s Event.dragStart) t := rfl

lemma prev_after_latest_dragStart (b : BoardPos) (t₁ t₂ : List Event)
    (h₂ : Event.dragStart ∉ t₂) :
    (run (init b) (t₁ ++ Event.dragStart :: t₂)).prev
      = some ((run (init b) t₁).board) := by
  rw [run_append, run_cons_dragStart,
      run_prev_of_noDragStart t₂ _ h₂]
  rfl

lemma callbackCmds_valid (prev : Option BoardPos) (status : String) :
    callbackCmds prev "valid" status = [] := by
  rw [callbackCmds]
  exact if_neg (by decide)

lemma callbackCmds_rejected (prev : Option BoardPos) (data status : String)
    (hd : data ≠ "valid") :
    callbackCmds prev data status = [UICmd.setPosition prev false] := by
  rw [callbackCmds]
  exact if_pos hd

lemma respond_valid_board (s : SyncState) (i : Nat) (status : String) :
    (step s (Event.respond i "valid" status)).board = s.board := by
  simp only [step]
  split
  · show (callbackCmds s.prev "valid" status).foldl applyUICmd s.board = s.board
    rw [callbackCmds_valid]
    rfl
  · rfl

lemma board_after_drop (s : SyncState) (source target : Square) (piece : Piece)
    (newPos oldPos : BoardPos) (orient : String) :
    (step s (Event.drop source target piece newPos oldPos orient)).board = newPos :=
  rfl

/-- C1: for every drag sequence in which the validation response body is
anything other than the literal string `"valid"`, the board displayed
after the response continuation runs equals the snapshot captured at the
most recent drag-start: for any trace whose last drag-start splits it as
`t₁ ++ dragStart :: t₂`, delivering a non-valid response to any
outstanding request leaves the board equal to the board that was
displayed when that drag-start ran. -/
theorem rollback_correctness (b : BoardPos) (t₁ t₂ : List Event)
    (h₂ : Event.dragStart ∉ t₂) (data status : String) (i : Nat)
    (hd : data ≠ "valid")
    (hi : i < (run (init b) (t₁ ++ Event.dragStart :: t₂)).inflight.length) :
    (step (run (init b) (t₁ ++ Event.dragStart :: t₂))
        (Event.respond i data status)).board
      = (run (init b) t₁).board :=
  respond_board_rollback _ i data status hi _
    (prev_after_latest_dragStart b t₁ t₂ h₂) hd

/-- Witness for C1: drag `e2`, drop `e2`→`e5`, server answers
`"invalid"`: the board reverts to the pre-drag position. -/
theorem rollback_correctness_witness :
    (step (run (init [("e2", "wP")])
          ([] ++ Event.dragStart ::
            [Event.drop "e2" "e5" "wP" [("e5", "wP")] [("e2", "wP")] "white"]))
        (Event.respond 0 "invalid" "success")).board
      = (run (init [("e2", "wP")]) []).board :=
  rollback_correctness [("e2", "wP")] []
    [Event.drop "e2" "e5" "wP" [("e5", "wP")] [("e2", "wP")] "white"]
    (by decide) "invalid" "success" 0 (by decide) (by decide)

/-- C2: verdict classification is fail-closed.  A `"valid"` body issues
no UI command; any other body issues the rollback command, and the
resulting state transition is identical to the one for the explicit
rejection token `"invalid"`. -/
theorem fail_closed_verdict (prev : Option BoardPos) (status : String) :
    callbackCmds prev "valid" status = [] ∧
    ∀ data : String, data ≠ "valid" →
      callbackCmds prev data status = [UICmd.setPosition prev false] ∧
      ∀ (s : SyncState) (i : Nat),
        step s (Event.respond i data status)
          = step s (Event.respond i "invalid" status) := by
  refine ⟨callbackCmds_valid prev status, fun data hd => ⟨callbackCmds_rejected prev data status hd, fun s i => ?_⟩⟩
  have h1 : callbackCmds s.prev data status = callbackCmds s.prev "invalid" status := by
    rw [callbackCmds_rejected _ _ _ hd, callbackCmds_rejected _ _ _ (by decide)]
  simp only [step, h1]

/-- Witness for C2: the bodies `""` and `"error"` both produce exactly
the rollback command, while `"valid"` produces none. -/
theorem fail_closed_verdict_witness :
    callbackCmds none "" "success" = [UICmd.setPosition none false] ∧
    callbackCmds none "error" "success" = [UICmd.setPosition none false] ∧
    callbackCmds none "valid" "success" = [] :=
  ⟨((fail_closed_verdict none "success").2 "" (by decide)).1,
   ((fail_closed_verdict none "success").2 "error" (by decide)).1,
   (fail_closed_verdict none "success").1⟩

/-- C3: acceptance idempotence.  After any trace ending in a drop, a
response with body exactly `"valid"` leaves the board equal to the
optimistic position applied at that drop and leaves the stored snapshot
unchanged. -/
theorem acceptance_idempotence (b : BoardPos) (t : List Event)
    (source target : Square) (piece : Piece) (newPos oldPos : BoardPos)
    (orient : String) (i : Nat) (status : String) :
    (step (run (init b) (t ++ [Event.drop source target piece newPos oldPos orient]))
        (Event.respond i "valid" status)).board = newPos ∧
    (step (run (init b) (t ++ [Event.drop source target piece newPos oldPos orient]))
        (Event.respond i "valid" status)).prev
      = (run (init b) (t ++ [Event.drop source target piece newPos oldPos orient])).prev := by
  constructor
  · rw [respond_valid_board, run_append]
    rfl
  · exact respond_prev _ _ _ _

/-- C4: every drag-start overwrites the stored snapshot with the current
board, and a rollback command always carries the position captured at
the latest drag-start that preceded it. -/
theorem snapshot_replacement (s : SyncState) (b : BoardPos) (t₁ t₂ : List Event)
    (h₂ : Event.dragStart ∉ t₂) (data status : String) (i : Nat)
    (hd : data ≠ "valid")
    (hi : i < (run (init b) (t₁ ++ Event.dragStart :: t₂)).inflight.length) :
    (step s Event.dragStart).prev = some s.board ∧
    (step (run (init b) (t₁ ++ Event.dragStart :: t₂))
        (Event.respond i data status)).uiLog
      = (run (init b) (t₁ ++ Event.dragStart :: t₂)).uiLog
        ++ [UICmd.setPosition (some ((run (init b) t₁).board)) false] := by
  refine ⟨rfl, ?_⟩
  rw [respond_uiLog _ _ _ _ hi, prev_after_latest_dragStart b t₁ t₂ h₂,
      callbackCmds_rejected _ _ _ hd]

/-- Witness for C4: after an earlier drag-start (capturing `e2`-pawn)
and a later one (capturing `e4`-pawn), the rollback command carries the
later snapshot. -/
theorem snapshot_replacement_witness :
    (step (init []) Event.dragStart).prev = some (init []).board ∧
    (step (run (init [("e2", "wP")])
          ([Event.dragStart,
            Event.drop "e2" "e4" "wP" [("e4", "wP")] [("e2", "wP")] "white",
            Event.respond 0 "valid" "success"] ++ Event.dragStart ::
            [Event.drop "e4" "e6" "wP" [("e6", "wP")] [("e4", "wP")] "white"]))
        (Event.respond 0 "invalid" "success")).uiLog
      = (run (init [("e2", "wP")])
          ([Event.dragStart,
            Event.drop "e2" "e4" "wP" [("e4", "wP")] [("e2", "wP")] "white",
            Event.respond 0 "valid" "success"] ++ Event.dragStart ::
            [Event.drop "e4" "e6" "wP" [("e6", "wP")] [("e4", "wP")] "white"])).uiLog
        ++ [UICmd.setPosition
              (some ((run (init [("e2", "wP")])
                [Event.dragStart,
                 Event.drop "e2" "e4" "wP" [("e4", "wP")] [("e2", "wP")] "white",
                 Event.respond 0 "valid" "success"]).board)) false] :=
  snapshot_replacement (init []) [("e2", "wP")]
    [Event.dragStart,
     Event.drop "e2" "e4" "wP" [("e4", "wP")] [("e2", "wP")] "white",
     Event.respond 0 "valid" "success"]
    [Event.drop "e4" "e6" "wP" [("e6", "wP")] [("e4", "wP")] "white"]
    (by decide) "invalid" "success" 0 (by decide) (by decide)

/-- C5 counterexample: the at-most-one-outstanding-proposal bound is
not maintained across every interleaving: after two drops with no
intervening response, two validation requests are simultaneously in
flight. -/
theorem single_proposal_invariant_cex :
    ¬ ((run (init [("e2", "wP"), ("d2", "wP")])
          [Event.drop "e2" "e4" "wP" [("e4", "wP"), ("d2", "wP")]
             [("e2", "wP"), ("d2", "wP")] "white",
           Event.drop "d2" "d4" "wP" [("e4", "wP"), ("d4", "wP")]
             [("e4", "wP"), ("d2", "wP")] "white"]).inflight.length ≤ 1) := by
  decide

/-- C5 (amended): the synchronizer holds a single snapshot slot, which
each drag-start overwrites wholesale; each drop puts exactly one
validation request in flight, and drag-start and response events never
add requests — but the number of outstanding requests is not bounded by
one across interleavings, since nothing stops a second drop while a
response is pending. -/
theorem one_request_per_drop (s : SyncState) (source target : Square)
    (piece : Piece) (newPos oldPos : BoardPos) (orient : String)
    (i : Nat) (data status : String) :
    (step s (Event.drop source target piece newPos oldPos orient)).inflight
      = s.inflight ++ [onDropRequest source target piece newPos oldPos orient] ∧
    (step s Event.dragStart).inflight = s.inflight ∧
    (step s (Event.respond i data status)).inflight.length ≤ s.inflight.length ∧
    (step s Event.dragStart).prev = some s.board :=
  ⟨rfl, rfl, respond_inflight_le s i data status, rfl⟩

/-- C6: a rollback is commanded as a single `setPosition` with the
animation flag `false` (embedding `board1.position(prev, false)`), and
handling a response never re-enters the drag/drop handlers: it neither
captures a new snapshot nor issues a new request (and the modelled
widget applies `setPosition` without emitting events). -/
theorem rollback_non_animated (prev : Option BoardPos) (data status : String)
    (hd : data ≠ "valid") (s : SyncState) (i : Nat) :
    callbackCmds prev data status = [UICmd.setPosition prev false] ∧
    (step s (Event.respond i data status)).prev = s.prev ∧
    (step s (Event.respond i data status)).inflight.length ≤ s.inflight.length :=
  ⟨callbackCmds_rejected prev data status hd, respond_prev s i data status,
   respond_inflight_le s i data status⟩

/-- Witness for C6 at the body `"invalid"`. -/
theorem rollback_non_animated_witness :
    callbackCmds (some [("e2", "wP")]) "invalid" "success"
      = [UICmd.setPosition (some [("e2", "wP")]) false] ∧
    (step (init []) (Event.respond 0 "invalid" "success")).prev = (init []).prev ∧
    (step (init []) (Event.respond 0 "invalid" "success")).inflight.length
      ≤ (init []).inflight.length :=
  rollback_non_animated (some [("e2", "wP")]) "invalid" "success" (by decide)
    (init []) 0

/-- C7: every drop issues exactly one request, addressed by the path
`"move/" ++ source ++ "/" ++ target`, as a POST with no payload; and the
continuation run when a response arrives is the registered callback
applied to the response body and status. -/
theorem transport_contract (s : SyncState) (source target : Square)
    (piece : Piece) (newPos oldPos : BoardPos) (orient : String)
    (i : Nat) (data status : String) (hi : i < s.inflight.length) :
    (step s (Event.drop source target piece newPos oldPos orient)).inflight
      = s.inflight
        ++ [{ path := "move/" ++ source ++ "/" ++ target, method := "POST",
              payload := none }] ∧
    (step s (Event.respond i data status)).uiLog
      = s.uiLog ++ callbackCmds s.prev data status :=
  ⟨rfl, respond_uiLog s i data status hi⟩

/-- Witness for C7: a drop `d2`→`d4` appends the request
`POST move/d2/d4` with no payload, and responding runs the callback. -/
theorem transport_contract_witness :
    (step (run (init []) [Event.drop "e2" "e4" "wP" [("e4", "wP")] [] "white"])
        (Event.drop "d2" "d4" "wP" [("d4", "wP")] [] "white")).inflight
      = (run (init []) [Event.drop "e2" "e4" "wP" [("e4", "wP")] [] "white"]).inflight
        ++ [{ path := "move/" ++ "d2" ++ "/" ++ "d4", method := "POST",
              payload := none }] ∧
    (step (run (init []) [Event.drop "e2" "e4" "wP" [("e4", "wP")] [] "white"])
        (Event.respond 0 "valid" "success")).uiLog
      = (run (init []) [Event.drop "e2" "e4" "wP" [("e4", "wP")] [] "white"]).uiLog
        ++ callbackCmds
            (run (init []) [Event.drop "e2" "e4" "wP" [("e4", "wP")] [] "white"]).prev
            "valid" "success" :=
  transport_contract _ "d2" "d4" "wP" [("d4", "wP")] [] "white" 0 "valid" "success"
    (by decide)

/-- C8: a drop whose target equals its source still appends exactly the
usual request (path `move/s/s`), and a response to it is reconciled by
the same callback as any other drop — no special case for
`source == target`. -/
theorem noop_move_no_special_case (s : SyncState) (source : Square)
    (piece : Piece) (newPos oldPos : BoardPos) (orient : String)
    (i : Nat) (data status : String)
    (hi : i < (step s (Event.drop source source piece newPos oldPos orient)).inflight.length) :
    (step s (Event.drop source source piece newPos oldPos orient)).inflight
      = s.inflight ++ [onDropRequest source source piece newPos oldPos orient] ∧
    (step (step s (Event.drop source source piece newPos oldPos orient))
        (Event.respond i data status)).uiLog
      = (step s (Event.drop source source piece newPos oldPos orient)).uiLog
        ++ callbackCmds s.prev data status :=
  ⟨rfl, respond_uiLog _ i data status hi⟩

/-- Witness for C8: dropping the `e2` pawn back on `e2` issues
`move/e2/e2` and the rejection is reconciled normally. -/
theorem noop_move_no_special_case_witness :
    (step (init [("e2", "wP")])
        (Event.drop "e2" "e2" "wP" [("e2", "wP")] [("e2", "wP")] "white")).inflight
      = (init [("e2", "wP")]).inflight
        ++ [onDropRequest "e2" "e2" "wP" [("e2", "wP")] [("e2", "wP")] "white"] ∧
    (step (step (init [("e2", "wP")])
          (Event.drop "e2" "e2" "wP" [("e2", "wP")] [("e2", "wP")] "white"))
        (Event.respond 0 "invalid" "success")).uiLog
      = (step (init [("e2", "wP")])
          (Event.drop "e2" "e2" "wP" [("e2", "wP")] [("e2", "wP")] "white")).uiLog
        ++ callbackCmds (init [("e2", "wP")]).prev "invalid" "success" :=
  noop_move_no_special_case (init [("e2", "wP")]) "e2" "wP" [("e2", "wP")]
    [("e2", "wP")] "white" 0 "invalid" "success" (by decide)

/-- C9: the request `onDrop` issues and the commit-or-rollback decision
of its callback depend only on the source, the target, the stored
snapshot, and the response body: two calls differing only in `piece`,
`newPos`, `oldPos`, `orientation`, or the response status produce the
same request and the same callback commands. -/
theorem onDrop_depends_only_on_move_and_snapshot (source target : Square)
    (p₁ p₂ : Piece) (n₁ n₂ o₁ o₂ : BoardPos) (r₁ r₂ : String)
    (prev : Option BoardPos) (data : String) (st₁ st₂ : String) :
    onDropRequest source target p₁ n₁ o₁ r₁
      = onDropRequest source target p₂ n₂ o₂ r₂ ∧
    callbackCmds prev data st₁ = callbackCmds prev data st₂ :=
  ⟨rfl, rfl⟩

/-- C10: if no drag-start has ever occurred, the snapshot variable is
still uninitialized (`none`, the JS `undefined`), and a rejected
response commands the widget to set its position to that undefined
value. -/
theorem rollback_before_any_dragStart (b : BoardPos) (t : List Event)
    (h : Event.dragStart ∉ t) (i : Nat) (data status : String)
    (hd : data ≠ "valid") (hi : i < (run (init b) t).inflight.length) :
    (run (init b) t).prev = none ∧
    (step (run (init b) t) (Event.respond i data status)).uiLog
      = (run (init b) t).uiLog ++ [UICmd.setPosition none false] := by
  have hp : (run (init b) t).prev = none := run_prev_of_noDragStart t _ h
  refine ⟨hp, ?_⟩
  rw [respond_uiLog _ _ _ _ hi, hp, callbackCmds_rejected _ _ _ hd]

/-- Witness for C10: a drop with no preceding drag-start followed by a
rejection commands `setPosition undefined`. -/
theorem rollback_before_any_dragStart_witness :
    (run (init [("e2", "wP")])
        [Event.drop "e2" "e4" "wP" [("e4", "wP")] [("e2", "wP")] "white"]).prev
      = none ∧
    (step (run (init [("e2", "wP")])
          [Event.drop "e2" "e4" "wP" [("e4", "wP")] [("e2", "wP")] "white"])
        (Event.respond 0 "invalid" "success")).uiLog
      = (run (init [("e2", "wP")])
          [Event.drop "e2" "e4" "wP" [("e4", "wP")] [("e2", "wP")] "white"]).uiLog
        ++ [UICmd.setPosition none false] :=
  rollback_before_any_dragStart [("e2", "wP")]
    [Event.drop "e2" "e4" "wP" [("e4", "wP")] [("e2", "wP")] "white"]
    (by decide) 0 "invalid" "success" (by decide) (by decide)

end Chess
